import Mathlib

/-!
Verification of the Kenmon authentication core (session manager,
email-OTP provider, Google OAuth authenticator) against its
natural-language specification.

The TypeScript source is shallowly embedded:
* Dates are `Nat` milliseconds since the epoch; `date-fns`'s
  `addSeconds d s` is `d + s * 1000` and `isAfter a b` is `b < a`.
* JWTs (library `jsonwebtoken`) are modelled symbolically: a signed
  value records the signing secret and the payload; `jwt.verify`
  succeeds exactly when the secrets agree (and, for payloads carrying
  an `exp` claim, when the clock is before `exp`, which is what the
  library enforces).  A `garbage` constructor stands for any string
  that is not a well-formed token signed with some secret.
* Randomness (`crypto.randomBytes`, `crypto.randomInt`,
  `Math.random`) is supplied by the environment as explicit
  parameters; `crypto.randomInt(0, 10)` is a `Fin 10` because the
  library guarantees the bound.
* The storage and cookie-adapter collaborators are given the
  semantics of the repository's own in-memory test implementations
  (`MockStorage` / `MockAdapter` in
  `packages/kenmon/src/tests/helpers/mocks.ts`): sessions live in a
  store keyed by id, updates assign only the supplied fields,
  invalidation sets `invalidated`/`invalidatedAt`.
* Each service operation is a pure function from the pre-state (and
  the operation's clock reading) to a result together with the list
  of collaborator side effects it performs, in order; `applyEffects`
  folds that list into the post-state.
-/

namespace Kenmon

/-- `date-fns` `addSeconds` on millisecond timestamps. -/
def addSecondsMs (d : Nat) (s : Nat) : Nat := d + s * 1000

/-- `date-fns` `isAfter a b`: `a` is strictly later than `b`. -/
def isAfter (a b : Nat) : Bool := decide (b < a)

/-- The typed errors of `packages/kenmon/src/errors.ts` that the
session manager can return. -/
inductive KenmonError where
  | userNotFound
  | userAlreadyExists (value : String)
  | sessionNotFound
  | invalidSession
  | sessionExpired
deriving DecidableEq, Repr

/-- `KenmonSession` from `packages/kenmon/src/types.ts`. -/
structure KenmonSession where
  id : String
  userId : String
  token : String
  expiresAt : Nat
  createdAt : Nat
  refreshedAt : Nat
  usedAt : Nat
  invalidated : Bool
  invalidatedAt : Option Nat
  ipAddress : Option String
  userAgent : Option String
  mfaVerified : Bool
  mfaEnabled : Bool
deriving DecidableEq, Repr

/-- Payload of the session cookie JWT: `{ sessionId, token }`. -/
structure SessionJwtPayload where
  sessionId : String
  token : String
deriving DecidableEq, Repr

/-- Symbolic session-cookie value (a JWT string on the wire). -/
inductive CookieValue where
  | jwtSigned (secret : String) (payload : SessionJwtPayload)
  | garbage (raw : String)
deriving DecidableEq, Repr

/-- `jwt.sign(payload, secret, { algorithm: 'HS256' })`. -/
def jwtSign (secret : String) (p : SessionJwtPayload) : CookieValue :=
  .jwtSigned secret p

/-- `jwt.verify(value, secret)` for the session cookie: succeeds iff the
value was signed with the same secret (the payload has no `exp`). -/
def jwtVerify (v : CookieValue) (secret : String) : Option SessionJwtPayload :=
  match v with
  | .jwtSigned s p => if s = secret then some p else none
  | .garbage _ => none

/-- Cookie jar of the adapter: name-to-value map as an assoc list. -/
def CookieJar := List (String × CookieValue)

/-- `adapter.getCookie(name)`. -/
def getCookieJar (jar : CookieJar) (name : String) : Option CookieValue :=
  (jar.find? (fun p => p.1 = name)).map (fun p => p.2)

/-- `adapter.setCookie(name, value, _)`: replaces any previous entry. -/
def setCookieJar (jar : CookieJar) (name : String) (v : CookieValue) : CookieJar :=
  (name, v) :: jar.filter (fun p => p.1 ≠ name)

/-- `adapter.deleteCookie(name)`. -/
def deleteCookieJar (jar : CookieJar) (name : String) : CookieJar :=
  jar.filter (fun p => p.1 ≠ name)

/-- The partial update record accepted by `storage.updateSession`. -/
structure SessionUpdate where
  expiresAt : Option Nat := none
  refreshedAt : Option Nat := none
  usedAt : Option Nat := none
  mfaVerified : Option Bool := none
deriving DecidableEq, Repr

/-- `Object.assign(session, data)` for the fields of `SessionUpdate`. -/
def applySessionUpdate (s : KenmonSession) (u : SessionUpdate) : KenmonSession :=
  { s with
    expiresAt := u.expiresAt.getD s.expiresAt
    refreshedAt := u.refreshedAt.getD s.refreshedAt
    usedAt := u.usedAt.getD s.usedAt
    mfaVerified := u.mfaVerified.getD s.mfaVerified }

/-- `storage.getSessionById`. -/
def getSessionById (l : List KenmonSession) (id : String) : Option KenmonSession :=
  l.find? (fun s => s.id = id)

/-- `storage.updateSession`. -/
def updateSessionStore (l : List KenmonSession) (id : String) (u : SessionUpdate) :
    List KenmonSession :=
  l.map (fun s => if s.id = id then applySessionUpdate s u else s)

/-- `storage.invalidateSession`. -/
def invalidateSessionStore (l : List KenmonSession) (id : String) (now : Nat) :
    List KenmonSession :=
  l.map (fun s =>
    if s.id = id then { s with invalidated := true, invalidatedAt := some now } else s)

/-- `storage.invalidateAllUserSessions`. -/
def invalidateAllUserSessionsStore (l : List KenmonSession) (userId : String) (now : Nat) :
    List KenmonSession :=
  l.map (fun s =>
    if s.userId = userId then { s with invalidated := true, invalidatedAt := some now } else s)

/-- Cookie attributes passed to `adapter.setCookie`. -/
structure CookieOptions where
  httpOnly : Bool
  secure : Bool
  sameSite : String
  maxAge : Nat
  path : String
deriving DecidableEq, Repr

/-- A storage / cookie-adapter side effect performed by the service,
recorded in program order. -/
inductive Effect where
  | createSessionE (s : KenmonSession)
  | updateSessionE (id : String) (u : SessionUpdate)
  | invalidateSessionE (id : String)
  | invalidateAllE (userId : String)
  | setCookieE (name : String) (value : CookieValue) (opts : CookieOptions)
  | deleteCookieE (name : String)
deriving DecidableEq, Repr

/-- Combined state of the storage and cookie-adapter collaborators. -/
structure AuthState where
  sessions : List KenmonSession
  cookies : CookieJar

/-- Semantics of one collaborator call on the collaborator state. -/
def applyEffect (now : Nat) (st : AuthState) : Effect → AuthState
  | .createSessionE s => { st with sessions := st.sessions ++ [s] }
  | .updateSessionE id u => { st with sessions := updateSessionStore st.sessions id u }
  | .invalidateSessionE id =>
      { st with sessions := invalidateSessionStore st.sessions id now }
  | .invalidateAllE userId =>
      { st with sessions := invalidateAllUserSessionsStore st.sessions userId now }
  | .setCookieE name v _ => { st with cookies := setCookieJar st.cookies name v }
  | .deleteCookieE name => { st with cookies := deleteCookieJar st.cookies name }

/-- Run a trace of collaborator calls in order. -/
def applyEffects (now : Nat) (st : AuthState) (es : List Effect) : AuthState :=
  es.foldl (applyEffect now) st

/-- Default session cookie name (`defaultSessionCookieName`). -/
def defaultSessionCookieName : String := "session"

/-- Resolved configuration of `KenmonAuthService` (`auth.ts` constructor). -/
structure KenmonAuthService where
  secret : String
  sessionTtl : Nat
  cookieName : String
  secure : Bool
  sameSite : String

/-- The constructor of `KenmonAuthService`: applies the configuration
defaults (`ttl` 14 days, cookie name `"session"`, `secure` iff
production, `sameSite` `"lax"`). -/
def mkAuthService (secret : String) (ttl : Option Nat) (cookieName : Option String)
    (secure : Option Bool) (sameSite : Option String) (isProduction : Bool) :
    KenmonAuthService :=
  { secret := secret
    sessionTtl := ttl.getD (14 * 24 * 60 * 60)
    cookieName := cookieName.getD "session"
    secure := secure.getD isProduction
    sameSite := sameSite.getD "lax" }

/-- `this.session.cookieName || defaultSessionCookieName` (the empty
string is falsy in JS). -/
def cookieNameOrDefault (svc : KenmonAuthService) : String :=
  if svc.cookieName = "" then defaultSessionCookieName else svc.cookieName

/-- `KenmonAuthService.setSessionCookie`: sign `{sessionId, token}` with
the service secret and write the cookie. -/
def setSessionCookie (svc : KenmonAuthService) (sessionId token : String) : List Effect :=
  [ .setCookieE (cookieNameOrDefault svc) (jwtSign svc.secret ⟨sessionId, token⟩)
      { httpOnly := true
        secure := svc.secure
        sameSite := if svc.sameSite = "" then "lax" else svc.sameSite
        maxAge := svc.sessionTtl
        path := "/" } ]

/-- `KenmonAuthService.createSession`.  The environment supplies the
fresh session id chosen by storage and the 256-bit random token from
`generateSessionToken` (`crypto.randomBytes(32).toString('hex')`);
storage fills in the timestamp fields as in `MockStorage.createSession`. -/
def createSession (svc : KenmonAuthService) (now : Nat) (freshId freshToken : String)
    (userId : String) (mfaVerified : Bool) (ipAddress userAgent : Option String) :
    KenmonSession × List Effect :=
  let expiresAt := addSecondsMs now svc.sessionTtl
  let session : KenmonSession :=
    { id := freshId
      userId := userId
      token := freshToken
      expiresAt := expiresAt
      createdAt := now
      refreshedAt := now
      usedAt := now
      invalidated := false
      invalidatedAt := none
      ipAddress := ipAddress
      userAgent := userAgent
      mfaVerified := mfaVerified
      mfaEnabled := false }
  (session, .createSessionE session :: setSessionCookie svc session.id session.token)

/-- `KenmonAuthService.verifySession`. -/
def verifySession (svc : KenmonAuthService) (st : AuthState) (now : Nat) :
    Except KenmonError KenmonSession × List Effect :=
  match getCookieJar st.cookies (cookieNameOrDefault svc) with
  | none => (.error .sessionNotFound, [])
  | some cookieValue =>
    match jwtVerify cookieValue svc.secret with
    | none => (.error .invalidSession, [])
    | some decoded =>
      match getSessionById st.sessions decoded.sessionId with
      | none => (.error .invalidSession, [])
      | some session =>
        if session.token ≠ decoded.token ∨ session.invalidated then
          (.error .invalidSession, [])
        else if isAfter now session.expiresAt then
          (.error .sessionExpired, [])
        else
          (.ok session, [.updateSessionE session.id { usedAt := some now }])

/-- `KenmonAuthService.refreshSession`. -/
def refreshSession (svc : KenmonAuthService) (st : AuthState) (now : Nat) :
    Except KenmonError Unit × List Effect :=
  match verifySession svc st now with
  | (.error e, tr) => (.error e, tr)
  | (.ok session, tr) =>
      (.ok (),
        tr ++
          [.updateSessionE session.id
            { expiresAt := some (addSecondsMs now svc.sessionTtl)
              refreshedAt := some now }] ++
          setSessionCookie svc session.id session.token)

/-- `KenmonAuthService.signOut`. -/
def signOut (svc : KenmonAuthService) (st : AuthState) (now : Nat)
    (allSessions : Bool) : List Effect :=
  (match verifySession svc st now with
   | (.ok session, tr) =>
      tr ++
        [if allSessions then .invalidateAllE session.userId
         else .invalidateSessionE session.id]
   | (.error _, tr) => tr) ++
  [.deleteCookieE (cookieNameOrDefault svc)]

/-- Google user profile attributes carried in an identifier's `data`
(`KenmonGoogleOAuthData` in the google-oauth-authenticator types). -/
structure GoogleOAuthData where
  googleId : String
  email : String
  emailVerified : Bool
  name : String
  givenName : String
  familyName : String
  picture : String
  locale : String
deriving DecidableEq, Repr

/-- Verifier-specific `data` payload of an identifier; only the Google
authenticator populates it. -/
inductive IdentifierData where
  | googleData (d : GoogleOAuthData)
deriving DecidableEq, Repr

/-- `KenmonIdentifier`: `{ type, value, data? }`. -/
structure KenmonIdentifier where
  type : String
  value : String
  data : Option IdentifierData := none
deriving DecidableEq, Repr

end Kenmon

namespace Kenmon.EmailOTP

/-- `KenmonEmailOTP` record stored by the OTP storage collaborator. -/
structure KenmonEmailOTP where
  id : String
  email : String
  code : String
  signature : String
  expiresAt : Nat
  used : Bool
deriving DecidableEq, Repr

/-- `KenmonEmailOTPErrorReason`. -/
inductive OTPErrorReason where
  | notFound
  | expired
  | invalidCode
  | alreadyUsed
  | emailMismatch
deriving DecidableEq, Repr

/-- Failure type of the provider's public operations: either a
`KenmonInvalidPayloadError` from schema validation (with the first zod
issue's message) or a `KenmonEmailOTPError` with its reason. -/
inductive ProviderError where
  | invalidPayload (message : String)
  | otpError (reason : OTPErrorReason)
deriving DecidableEq, Repr

/-- Arguments of `mailer.sendEmail`. -/
structure SendEmailParams where
  emailFrom : String
  toAddr : String
  subject : String
  textContent : Option String
  htmlContent : Option String
deriving DecidableEq, Repr

/-- Side effects of the OTP provider: OTP-storage calls (reads
included, so that "no storage access" is expressible) and mailer
calls, in program order. -/
inductive OTPEffect where
  | getOTPByIdE (id : String)
  | createOTPE (otp : KenmonEmailOTP)
  | markOTPAsUsedE (id : String)
  | sendEmailE (p : SendEmailParams)
deriving DecidableEq, Repr

/-- `otpStorage.getOTPById`. -/
def getOTPById (l : List KenmonEmailOTP) (id : String) : Option KenmonEmailOTP :=
  l.find? (fun o => o.id = id)

/-- `otpStorage.markOTPAsUsed` (sets `used = true` on the record, as in
the test `MockOTPStorage`). -/
def markOTPAsUsedStore (l : List KenmonEmailOTP) (id : String) : List KenmonEmailOTP :=
  l.map (fun o => if o.id = id then { o with used := true } else o)

/-- State transition of the OTP store under one effect (reads and
mailer calls leave it unchanged). -/
def applyOTPEffect (l : List KenmonEmailOTP) : OTPEffect → List KenmonEmailOTP
  | .getOTPByIdE _ => l
  | .createOTPE otp => l ++ [otp]
  | .markOTPAsUsedE id => markOTPAsUsedStore l id
  | .sendEmailE _ => l

/-- Run a trace of OTP-provider effects in order. -/
def applyOTPEffects (l : List KenmonEmailOTP) (es : List OTPEffect) : List KenmonEmailOTP :=
  es.foldl applyOTPEffect l

/-- Resolved configuration of `KenmonEmailOTPProvider` (custom email
templates are optional functions of `(code, signature, otpTtl)`). -/
structure EmailOTPProvider where
  otpTtl : Nat
  otpLength : Nat
  emailFrom : String
  emailSubject : String
  emailTextContent : Option (String → String → Nat → String)
  emailHtmlContent : Option (String → String → Nat → String)

/-- The constructor of `KenmonEmailOTPProvider`: applies the defaults
(`ttl` 300 s, `length` 6, sender and subject fallbacks). -/
def mkEmailOTPProvider (ttl length : Option Nat) (emailFrom : Option String)
    (subject : Option String)
    (textContent htmlContent : Option (String → String → Nat → String)) :
    EmailOTPProvider :=
  { otpTtl := ttl.getD 300
    otpLength := length.getD 6
    emailFrom := emailFrom.getD "noreply@example.com"
    emailSubject := subject.getD "Your verification code"
    emailTextContent := textContent
    emailHtmlContent := htmlContent }

/-- The decimal digit characters, as in `const digits = '0123456789'`. -/
def otpDigits : List Char := "0123456789".toList

/-- `generateOTPCode`: one digit per loop iteration, each picked by
`crypto.randomInt(0, 10)` — the environment's `rand i` is the value of
the `i`-th call, a `Fin 10` because the library guarantees the range. -/
def generateOTPCode (len : Nat) (rand : Nat → Fin 10) : String :=
  String.mk ((List.range len).map (fun i => otpDigits.getD (rand i).val '0'))

/-- Word list `ADVERBS` of `signature.ts`. -/
def ADVERBS : List String :=
  ["Quickly", "Slowly", "Happily", "Eagerly", "Gently", "Boldly", "Quietly",
   "Swiftly", "Cheerfully", "Gracefully", "Brightly", "Calmly", "Warmly",
   "Smoothly", "Lightly"]

/-- Word list `ADJECTIVES` of `signature.ts`. -/
def ADJECTIVES : List String :=
  ["Happy", "Brave", "Clever", "Gentle", "Mighty", "Playful", "Swift", "Wise",
   "Bright", "Calm", "Noble", "Proud", "Kind", "Bold", "Joyful"]

/-- Word list `ANIMALS` of `signature.ts`. -/
def ANIMALS : List String :=
  ["Elephant", "Tiger", "Dolphin", "Eagle", "Panda", "Fox", "Owl", "Lion",
   "Penguin", "Koala", "Wolf", "Bear", "Deer", "Rabbit", "Falcon"]

/-- `generateSignature`: three random words, the indices being the
`Math.floor(Math.random() * 15)` draws supplied by the environment. -/
def generateSignature (a b c : Fin 15) : String :=
  (ADVERBS.getD a.val "") ++ " " ++ (ADJECTIVES.getD b.val "") ++ " " ++
    (ANIMALS.getD c.val "")

/-- `data` of a `prepare`/`sendOTP` payload. -/
structure PrepareData where
  email : String
deriving DecidableEq, Repr

/-- `data` of an `authenticate`/`verifyOTP` payload. -/
structure AuthenticateData where
  email : String
  otpId : String
  code : String
deriving DecidableEq, Repr

/-- Success value of `prepare`: `{ otpId, signature }`. -/
structure PrepareResult where
  otpId : String
  signature : String
deriving DecidableEq, Repr

/-- Environment of one `prepare` run: the storage-chosen fresh OTP id
and the random draws consumed by code and signature generation. -/
structure PrepareEnv where
  freshOtpId : String
  rand : Nat → Fin 10
  sigAdverb : Fin 15
  sigAdjective : Fin 15
  sigAnimal : Fin 15

/-- `emailOTPPrepareDataSchema.safeParse` (zod).  The `z.email()`
validator is an external library predicate, abstracted as the
Boolean parameter `isEmail`. -/
def prepareSchemaOk (isEmail : String → Bool) (d : PrepareData) : Bool :=
  isEmail d.email

/-- `emailOTPAuthenticateDataSchema.safeParse` (zod): a well-formed
email, a nonempty `otpId` and a nonempty `code`. -/
def authenticateSchemaOk (isEmail : String → Bool) (d : AuthenticateData) : Bool :=
  isEmail d.email && decide (1 ≤ d.otpId.length) && decide (1 ≤ d.code.length)

/-- Message of the first zod issue for a failing authenticate payload
(issues are reported in schema key order: email, otpId, code). -/
def authenticateSchemaMsg (isEmail : String → Bool) (d : AuthenticateData) : String :=
  if ¬ isEmail d.email then "Invalid email address"
  else if d.otpId.length = 0 then "OTP ID is required"
  else "OTP code is required"

/-- Default plain-text email body of `prepare`. -/
def defaultTextContent (code signature : String) (otpTtl : Nat) : String :=
  "Your verification code is: " ++ code ++ "\n\nSignature: " ++ signature ++
    "\n\nThis code will expire in " ++ toString (otpTtl / 60) ++ " minutes."

/-- Default HTML email body of `prepare` (markup abbreviated to the
interpolated data). -/
def defaultHtmlContent (code signature : String) (otpTtl : Nat) : String :=
  "<div><p>Your verification code is:</p><h2>" ++ code ++
    "</h2><p><strong>Signature:</strong> " ++ signature ++
    "</p><p>This code will expire in " ++ toString (otpTtl / 60) ++
    " minutes.</p></div>"

/-- `KenmonEmailOTPProvider.prepare` (`sendOTP`). -/
def prepare (p : EmailOTPProvider) (isEmail : String → Bool) (now : Nat)
    (env : PrepareEnv) (d : PrepareData) :
    Except ProviderError PrepareResult × List OTPEffect :=
  if ¬ prepareSchemaOk isEmail d then
    (.error (.invalidPayload "Invalid email address"), [])
  else
    let code := generateOTPCode p.otpLength env.rand
    let signature := generateSignature env.sigAdverb env.sigAdjective env.sigAnimal
    let expiresAt := addSecondsMs now p.otpTtl
    let otp : KenmonEmailOTP :=
      { id := env.freshOtpId
        email := d.email
        code := code
        signature := signature
        expiresAt := expiresAt
        used := false }
    let textContent :=
      match p.emailTextContent with
      | some f => f code signature p.otpTtl
      | none => defaultTextContent code signature p.otpTtl
    let htmlContent :=
      match p.emailHtmlContent with
      | some f => f code signature p.otpTtl
      | none => defaultHtmlContent code signature p.otpTtl
    (.ok { otpId := otp.id, signature := otp.signature },
      [.createOTPE otp,
       .sendEmailE
        { emailFrom := p.emailFrom
          toAddr := d.email
          subject := p.emailSubject
          textContent := some textContent
          htmlContent := some htmlContent }])

/-- `KenmonEmailOTPProvider.authenticate` (`verifyOTP`). -/
def authenticate (isEmail : String → Bool) (store : List KenmonEmailOTP)
    (now : Nat) (d : AuthenticateData) :
    Except ProviderError KenmonIdentifier × List OTPEffect :=
  if ¬ authenticateSchemaOk isEmail d then
    (.error (.invalidPayload (authenticateSchemaMsg isEmail d)), [])
  else
    match getOTPById store d.otpId with
    | none => (.error (.otpError .notFound), [.getOTPByIdE d.otpId])
    | some otp =>
      if otp.email ≠ d.email then
        (.error (.otpError .emailMismatch), [.getOTPByIdE d.otpId])
      else if otp.used then
        (.error (.otpError .alreadyUsed), [.getOTPByIdE d.otpId])
      else if isAfter now otp.expiresAt then
        (.error (.otpError .expired), [.getOTPByIdE d.otpId])
      else if otp.code ≠ d.code then
        (.error (.otpError .invalidCode), [.getOTPByIdE d.otpId])
      else
        (.ok { type := "email-otp", value := d.email },
          [.getOTPByIdE d.otpId, .markOTPAsUsedE d.otpId])

/-- The OTP record a successful `prepare` run stores (the value
`createOTP` persists). -/
def preparedOTP (p : EmailOTPProvider) (now : Nat) (env : PrepareEnv)
    (dp : PrepareData) : KenmonEmailOTP :=
  { id := env.freshOtpId
    email := dp.email
    code := generateOTPCode p.otpLength env.rand
    signature := generateSignature env.sigAdverb env.sigAdjective env.sigAnimal
    expiresAt := addSecondsMs now p.otpTtl
    used := false }

/-- The email a successful `prepare` run sends. -/
def preparedMail (p : EmailOTPProvider) (_now : Nat) (env : PrepareEnv)
    (dp : PrepareData) : SendEmailParams :=
  let code := generateOTPCode p.otpLength env.rand
  let signature := generateSignature env.sigAdverb env.sigAdjective env.sigAnimal
  { emailFrom := p.emailFrom
    toAddr := dp.email
    subject := p.emailSubject
    textContent := some
      (match p.emailTextContent with
       | some f => f code signature p.otpTtl
       | none => defaultTextContent code signature p.otpTtl)
    htmlContent := some
      (match p.emailHtmlContent with
       | some f => f code signature p.otpTtl
       | none => defaultHtmlContent code signature p.otpTtl) }

end Kenmon.EmailOTP

namespace Kenmon.GoogleOAuth

/-- User intent carried through the OAuth round trip. -/
inductive OAuthIntent where
  | signInIntent
  | signUpIntent
deriving DecidableEq, Repr

/-- `StatePayload`: `{ iat, exp, nonce, intent }` (times in seconds). -/
structure StatePayload where
  iat : Nat
  exp : Nat
  nonce : String
  intent : OAuthIntent
deriving DecidableEq, Repr

/-- Symbolic JWT state token (the OAuth `state` parameter string). -/
inductive StateToken where
  | jwtSigned (secret : String) (payload : StatePayload)
  | garbage (raw : String)
deriving DecidableEq, Repr

/-- `KenmonGoogleOAuthErrorReason`. -/
inductive GoogleOAuthErrorReason where
  | invalidState
  | expiredState
  | invalidCode
  | tokenExchangeFailed
  | profileFetchFailed
deriving DecidableEq, Repr

/-- The hexadecimal digit characters. -/
def hexDigits : List Char := "0123456789abcdef".toList

/-- One byte as two lowercase hex characters. -/
def byteToHex (b : Fin 256) : String :=
  String.mk [hexDigits.getD (b.val / 16) '0', hexDigits.getD (b.val % 16) '0']

/-- `crypto.randomBytes(n).toString('hex')`: the environment supplies
the `i`-th random byte as `byte i`. -/
def randomBytesHex (n : Nat) (byte : Nat → Fin 256) : String :=
  String.join ((List.range n).map (fun i => byteToHex (byte i)))

/-- `generateStateToken`: signs `{ iat = now, exp = now + 600,
nonce = hex of 16 random bytes, intent }` with the configured secret
(`nowSec` is the second-resolution clock `Math.floor(Date.now() / 1000)`). -/
def generateStateToken (secret : String) (nowSec : Nat) (byte : Nat → Fin 256)
    (intent : OAuthIntent) : StateToken :=
  .jwtSigned secret
    { iat := nowSec
      exp := nowSec + 600
      nonce := randomBytesHex 16 byte
      intent := intent }

/-- `verifyStateToken` (`jwt.verify(token, secret)` followed by the
catch): `some payload` iff the token is signed with the configured
secret and the `exp` claim has not passed (`jsonwebtoken` rejects a
token once `clockTimestamp ≥ exp`). -/
def verifyStateToken (token : StateToken) (secret : String) (nowSec : Nat) :
    Option StatePayload :=
  match token with
  | .jwtSigned s p => if s = secret ∧ nowSec < p.exp then some p else none
  | .garbage _ => none

/-- `haystack.includes(needle)` on JS strings. -/
def strIncludes (haystack needle : String) : Bool :=
  decide (List.IsInfix needle.toList haystack.toList)

/-- Outcome of `oauth2Client.getToken(code)` as supplied by the
provider environment: a thrown error message, or a token response
whose `id_token` may be absent (the id-token string is kept opaque). -/
inductive TokenExchangeOutcome where
  | threw (message : String)
  | tokens (idToken : Option String)

/-- The ID-token claims (`GoogleUserInfo`) relevant to the identifier
mapping. -/
structure GoogleUserInfo where
  sub : String
  email : String
  emailVerified : Bool
  name : String
  givenName : String
  familyName : String
  picture : String
  locale : String
deriving DecidableEq, Repr

/-- Outcome of `oauth2Client.verifyIdToken` plus `ticket.getPayload()`:
a thrown error message, or an optional decoded claim set. -/
inductive IdTokenOutcome where
  | threw (message : String)
  | payload (info : Option GoogleUserInfo)

/-- Environment of one `verifyCallback` run: the responses of the
external Google OAuth client. -/
structure OAuthEnv where
  getToken : String → TokenExchangeOutcome
  verifyIdToken : String → IdTokenOutcome

/-- Calls made to the external OAuth client, in program order. -/
inductive OAuthEffect where
  | getTokenE (code : String)
  | verifyIdTokenE (idToken : String)
deriving DecidableEq, Repr

/-- The catch-clause classification of a thrown exchange error:
`invalid_grant` / already-redeemed messages map to `invalid-code`,
anything else to `token-exchange-failed`. -/
def classifyExchangeError (message : String) : GoogleOAuthErrorReason :=
  if strIncludes message "invalid_grant" ||
      strIncludes message "Code was already redeemed" then
    .invalidCode
  else
    .tokenExchangeFailed

/-- `KenmonGoogleOAuthAuthenticator.verifyCallback`. -/
def verifyCallback (secret : String) (env : OAuthEnv) (nowSec : Nat)
    (code : String) (state : StateToken) :
    Except GoogleOAuthErrorReason (OAuthIntent × KenmonIdentifier) × List OAuthEffect :=
  match verifyStateToken state secret nowSec with
  | none => (.error .invalidState, [])
  | some statePayload =>
    match env.getToken code with
    | .threw message => (.error (classifyExchangeError message), [.getTokenE code])
    | .tokens none => (.error .tokenExchangeFailed, [.getTokenE code])
    | .tokens (some idToken) =>
      match env.verifyIdToken idToken with
      | .threw message =>
          (.error (classifyExchangeError message),
            [.getTokenE code, .verifyIdTokenE idToken])
      | .payload none =>
          (.error .profileFetchFailed, [.getTokenE code, .verifyIdTokenE idToken])
      | .payload (some info) =>
          (.ok (statePayload.intent,
            { type := "google-oauth"
              value := info.sub
              data := some (.googleData
                { googleId := info.sub
                  email := info.email
                  emailVerified := info.emailVerified
                  name := info.name
                  givenName := info.givenName
                  familyName := info.familyName
                  picture := info.picture
                  locale := info.locale }) }),
            [.getTokenE code, .verifyIdTokenE idToken])

end Kenmon.GoogleOAuth

namespace Kenmon

/-- Concrete service fixture used by the witness theorems: default
configuration, secret `"top-secret"`, outside production. -/
def svcEx : KenmonAuthService := mkAuthService "top-secret" none none none none false

/-- Concrete stored session fixture used by the witness theorems. -/
def sessEx : KenmonSession :=
  { id := "sid-1"
    userId := "u-1"
    token := "tok-1"
    expiresAt := 10000
    createdAt := 0
    refreshedAt := 0
    usedAt := 0
    invalidated := false
    invalidatedAt := none
    ipAddress := none
    userAgent := none
    mfaVerified := false
    mfaEnabled := false }

/-- A second stored session fixture, belonging to a different user. -/
def sessEx2 : KenmonSession :=
  { sessEx with id := "sid-2", userId := "u-2", token := "tok-2" }

/-- A third stored session fixture, same user as `sessEx`. -/
def sessEx3 : KenmonSession :=
  { sessEx with id := "sid-3", token := "tok-3" }

/-- Collaborator-state fixture: `sessEx` stored and its signed cookie set. -/
def stEx : AuthState :=
  { sessions := [sessEx, sessEx2, sessEx3]
    cookies := [("session", jwtSign "top-secret" ⟨"sid-1", "tok-1"⟩)] }

/-- Empty collaborator-state fixture. -/
def stEmpty : AuthState := { sessions := [], cookies := [] }

end Kenmon

namespace Kenmon.EmailOTP

/-- Concrete stand-in for the zod `z.email()` validator in witness
theorems: accepts exactly `"a@b.com"`. -/
def isEmailEx : String → Bool := fun s => s = "a@b.com"

/-- Concrete stored OTP fixture used by the witness theorems. -/
def otpEx : KenmonEmailOTP :=
  { id := "otp-1"
    email := "a@b.com"
    code := "123456"
    signature := "Quickly Happy Elephant"
    expiresAt := 300000
    used := false }

/-- Provider fixture with the default configuration. -/
def provEx : EmailOTPProvider := mkEmailOTPProvider none none none none none none

/-- A stored OTP fixture that is simultaneously bound to a different
email, expired long ago, and holds a different code. -/
def otpBadEx : KenmonEmailOTP :=
  { id := "otp-1"
    email := "c@d.com"
    code := "999999"
    signature := "Slowly Brave Tiger"
    expiresAt := 5
    used := false }

/-- Prepare-environment fixture: fresh id `"otp-9"`, constantly zero
random draws. -/
def prepEnvEx : PrepareEnv :=
  { freshOtpId := "otp-9"
    rand := fun _ => ⟨0, by decide⟩
    sigAdverb := ⟨0, by decide⟩
    sigAdjective := ⟨0, by decide⟩
    sigAnimal := ⟨0, by decide⟩ }

end Kenmon.EmailOTP

namespace Kenmon.GoogleOAuth

/-- OAuth-client environment fixture whose calls all fail; the witness
theorems only exercise paths that never reach it. -/
def oauthEnvEx : OAuthEnv :=
  { getToken := fun _ => .threw "unreachable"
    verifyIdToken := fun _ => .threw "unreachable" }

end Kenmon.GoogleOAuth

namespace Kenmon

theorem isAfter_eq_true_iff (a b : Nat) : isAfter a b = true ↔ b < a := by
  simp [isAfter]

theorem isAfter_eq_false_iff (a b : Nat) : isAfter a b = false ↔ a ≤ b := by
  simp [isAfter]

/-- Logical characterization of the success case of `verifySession`. -/
theorem verifySession_ok_iff (svc : KenmonAuthService) (st : AuthState) (now : Nat)
    (s : KenmonSession) :
    (verifySession svc st now).1 = .ok s ↔
      ∃ cv d, getCookieJar st.cookies (cookieNameOrDefault svc) = some cv ∧
        jwtVerify cv svc.secret = some d ∧
        getSessionById st.sessions d.sessionId = some s ∧
        s.token = d.token ∧ s.invalidated = false ∧ now ≤ s.expiresAt := by
  unfold verifySession
  split
  · next hcv => simp [hcv]
  · next cv hcv =>
    split
    · next hjw => simp [hcv, hjw]
    · next d hjw =>
      split
      · next hget => simp [hcv, hjw, hget]
      · next sess hget =>
        split
        · next hbad =>
          simp only [hcv, hjw, hget, Option.some.injEq]
          constructor
          · intro h; exact absurd h (by simp)
          · rintro ⟨cv2, d2, rfl, hjw2, hget2, htok, hinv, _⟩
            rw [hjw] at hjw2
            obtain rfl := Option.some.inj hjw2
            rw [hget] at hget2
            obtain rfl := Option.some.inj hget2
            rcases hbad with hbad | hbad
            · exact absurd htok hbad
            · simp [hinv] at hbad
        · next hgood =>
          push_neg at hgood
          obtain ⟨htok, hinv⟩ := hgood
          split
          · next hexp =>
            rw [isAfter_eq_true_iff] at hexp
            simp only [hcv, hjw, hget, Option.some.injEq]
            constructor
            · intro h; exact absurd h (by simp)
            · rintro ⟨cv2, d2, rfl, hjw2, hget2, _, _, hle⟩
              rw [hjw] at hjw2
              obtain rfl := Option.some.inj hjw2
              rw [hget] at hget2
              obtain rfl := Option.some.inj hget2
              omega
          · next hexp =>
            rw [Bool.not_eq_true, isAfter_eq_false_iff] at hexp
            simp only [hcv, hjw, hget, Option.some.injEq]
            constructor
            · intro h
              simp only [Except.ok.injEq] at h
              subst h
              exact ⟨cv, d, rfl, hjw, hget, htok, by simpa using hinv, hexp⟩
            · rintro ⟨cv2, d2, rfl, hjw2, hget2, _, _, _⟩
              rw [hjw] at hjw2
              obtain rfl := Option.some.inj hjw2
              rw [hget] at hget2
              obtain rfl := Option.some.inj hget2
              rfl

/-- `verifySession` fails with `SessionNotFound` exactly when no
session cookie is present. -/
theorem verifySession_notFound_iff (svc : KenmonAuthService) (st : AuthState)
    (now : Nat) :
    (verifySession svc st now).1 = .error .sessionNotFound ↔
      getCookieJar st.cookies (cookieNameOrDefault svc) = none := by
  unfold verifySession
  split
  · next hcv => simp [hcv]
  · next cv hcv =>
    split
    · simp [hcv]
    · split
      · simp [hcv]
      · split
        · simp [hcv]
        · split
          · simp [hcv]
          · simp [hcv]

/-- `verifySession` fails with `SessionExpired` exactly when the
cookie decodes, the stored session matches and is not invalidated,
and the clock is strictly past `expiresAt`. -/
theorem verifySession_expired_iff (svc : KenmonAuthService) (st : AuthState)
    (now : Nat) :
    (verifySession svc st now).1 = .error .sessionExpired ↔
      ∃ cv d s, getCookieJar st.cookies (cookieNameOrDefault svc) = some cv ∧
        jwtVerify cv svc.secret = some d ∧
        getSessionById st.sessions d.sessionId = some s ∧
        s.token = d.token ∧ s.invalidated = false ∧ s.expiresAt < now := by
  unfold verifySession
  split
  · next hcv => simp [hcv]
  · next cv hcv =>
    split
    · next hjw => simp [hcv, hjw]
    · next d hjw =>
      split
      · next hget => simp [hcv, hjw, hget]
      · next sess hget =>
        split
        · next hbad =>
          simp only [hcv, hjw, hget, Option.some.injEq]
          constructor
          · intro h; exact absurd h (by simp)
          · rintro ⟨cv2, d2, s2, rfl, hjw2, hget2, htok, hinv, _⟩
            rw [hjw] at hjw2
            obtain rfl := Option.some.inj hjw2
            rw [hget] at hget2
            obtain rfl := Option.some.inj hget2
            rcases hbad with hbad | hbad
            · exact absurd htok hbad
            · simp [hinv] at hbad
        · next hgood =>
          push_neg at hgood
          obtain ⟨htok, hinv⟩ := hgood
          split
          · next hexp =>
            rw [isAfter_eq_true_iff] at hexp
            simp only [hcv, hjw, hget, Option.some.injEq]
            constructor
            · intro _
              exact ⟨cv, d, sess, rfl, hjw, hget, htok, by simpa using hinv, hexp⟩
            · intro _; trivial
          · next hexp =>
            rw [Bool.not_eq_true, isAfter_eq_false_iff] at hexp
            simp only [hcv, hjw, hget, Option.some.injEq]
            constructor
            · intro h; exact absurd h (by simp)
            · rintro ⟨cv2, d2, s2, rfl, hjw2, hget2, _, _, hlt⟩
              rw [hjw] at hjw2
              obtain rfl := Option.some.inj hjw2
              rw [hget] at hget2
              obtain rfl := Option.some.inj hget2
              omega

/-- `verifySession` fails with `InvalidSession` exactly when a cookie
is present but either its JWT does not verify, or no stored session
matches the decoded id, or the stored token differs from the decoded
token, or the session is invalidated. -/
theorem verifySession_invalid_iff (svc : KenmonAuthService) (st : AuthState)
    (now : Nat) :
    (verifySession svc st now).1 = .error .invalidSession ↔
      ∃ cv, getCookieJar st.cookies (cookieNameOrDefault svc) = some cv ∧
        (jwtVerify cv svc.secret = none ∨
          ∃ d, jwtVerify cv svc.secret = some d ∧
            (getSessionById st.sessions d.sessionId = none ∨
              ∃ s, getSessionById st.sessions d.sessionId = some s ∧
                (s.token ≠ d.token ∨ s.invalidated = true))) := by
  unfold verifySession
  split
  · next hcv => simp [hcv]
  · next cv hcv =>
    split
    · next hjw => simp [hcv, hjw]
    · next d hjw =>
      split
      · next hget => simp [hcv, hjw, hget]
      · next sess hget =>
        have hfalse : ∀ htok : sess.token = d.token, ∀ hinv : sess.invalidated = false,
            ¬ (jwtVerify cv svc.secret = none ∨
              ∃ d2, jwtVerify cv svc.secret = some d2 ∧
                (getSessionById st.sessions d2.sessionId = none ∨
                  ∃ s2, getSessionById st.sessions d2.sessionId = some s2 ∧
                    (s2.token ≠ d2.token ∨ s2.invalidated = true))) := by
          intro htok hinv h
          rcases h with hnone | ⟨d2, hjw2, hrest⟩
          · rw [hjw] at hnone; cases hnone
          · rw [hjw] at hjw2
            obtain rfl := Option.some.inj hjw2
            rcases hrest with hnone | ⟨s2, hget2, hrest⟩
            · rw [hget] at hnone; cases hnone
            · rw [hget] at hget2
              obtain rfl := Option.some.inj hget2
              rcases hrest with h | h
              · exact h htok
              · simp [hinv] at h
        split
        · next hbad =>
          simp only [hcv, hjw, hget, Option.some.injEq]
          constructor
          · intro _
            refine ⟨cv, rfl, .inr ⟨d, hjw, .inr ⟨sess, hget, ?_⟩⟩⟩
            rcases hbad with hbad | hbad
            · exact .inl hbad
            · exact .inr hbad
          · intro _; trivial
        · next hgood =>
          push_neg at hgood
          obtain ⟨htok, hinv⟩ := hgood
          have hinv2 : sess.invalidated = false := by simpa using hinv
          split
          · next hexp =>
            simp only [hcv, Option.some.injEq]
            constructor
            · intro h; exact absurd h (by simp)
            · rintro ⟨cv2, rfl, hrest⟩
              exact absurd hrest (hfalse htok hinv2)
          · next hexp =>
            simp only [hcv, Option.some.injEq]
            constructor
            · intro h; exact absurd h (by simp)
            · rintro ⟨cv2, rfl, hrest⟩
              exact absurd hrest (hfalse htok hinv2)

/-- The collaborator calls of `verifySession`: none on failure, the
best-effort `usedAt` touch of the returned session on success. -/
theorem verifySession_trace (svc : KenmonAuthService) (st : AuthState) (now : Nat) :
    (verifySession svc st now).2 =
      (match (verifySession svc st now).1 with
       | .ok s => [Effect.updateSessionE s.id { usedAt := some now }]
       | .error _ => ([] : List Effect)) := by
  unfold verifySession
  split
  · rfl
  · split
    · rfl
    · split
      · rfl
      · split
        · rfl
        · split
          · rfl
          · rfl

/-- On any failure, `verifySession` performs no collaborator call. -/
theorem verifySession_error_trace (svc : KenmonAuthService) (st : AuthState)
    (now : Nat) (e : KenmonError)
    (h : (verifySession svc st now).1 = .error e) :
    (verifySession svc st now).2 = [] := by
  rw [verifySession_trace, h]

/-- On success, `verifySession`'s only collaborator call is the
best-effort `usedAt` touch of the returned session. -/
theorem verifySession_ok_trace (svc : KenmonAuthService) (st : AuthState)
    (now : Nat) (s : KenmonSession)
    (h : (verifySession svc st now).1 = .ok s) :
    (verifySession svc st now).2 =
      [.updateSessionE s.id { usedAt := some now }] := by
  rw [verifySession_trace, h]

/-- C1: `verifySession` classifies every cookie state exactly: it
fails with `KenmonSessionNotFoundError` iff no session cookie is
present; with `KenmonInvalidSessionError` iff a cookie is present but
its JWT does not verify/decode, or no stored session matches the
decoded `sessionId`, or the stored `token` is not exactly equal to the
decoded `token`, or the stored session is invalidated; with
`KenmonSessionExpiredError` iff all of those checks pass but the
current time is strictly after `expiresAt`; and it succeeds with the
stored session iff everything passes and `now ≤ expiresAt` (a session
whose `expiresAt` equals the current instant still succeeds). -/
theorem claim_C1_verifySession_classification (svc : KenmonAuthService)
    (st : AuthState) (now : Nat) :
    ((verifySession svc st now).1 = .error .sessionNotFound ↔
      getCookieJar st.cookies (cookieNameOrDefault svc) = none) ∧
    ((verifySession svc st now).1 = .error .invalidSession ↔
      ∃ cv, getCookieJar st.cookies (cookieNameOrDefault svc) = some cv ∧
        (jwtVerify cv svc.secret = none ∨
          ∃ d, jwtVerify cv svc.secret = some d ∧
            (getSessionById st.sessions d.sessionId = none ∨
              ∃ s, getSessionById st.sessions d.sessionId = some s ∧
                (s.token ≠ d.token ∨ s.invalidated = true)))) ∧
    ((verifySession svc st now).1 = .error .sessionExpired ↔
      ∃ cv d s, getCookieJar st.cookies (cookieNameOrDefault svc) = some cv ∧
        jwtVerify cv svc.secret = some d ∧
        getSessionById st.sessions d.sessionId = some s ∧
        s.token = d.token ∧ s.invalidated = false ∧ s.expiresAt < now) ∧
    (∀ s, (verifySession svc st now).1 = .ok s ↔
      ∃ cv d, getCookieJar st.cookies (cookieNameOrDefault svc) = some cv ∧
        jwtVerify cv svc.secret = some d ∧
        getSessionById st.sessions d.sessionId = some s ∧
        s.token = d.token ∧ s.invalidated = false ∧ now ≤ s.expiresAt) :=
  ⟨verifySession_notFound_iff svc st now,
   verifySession_invalid_iff svc st now,
   verifySession_expired_iff svc st now,
   fun s => verifySession_ok_iff svc st now s⟩

/-- Witness for C1: at the concrete fixture state the classification
yields success exactly at the expiry boundary `now = expiresAt`,
`SessionExpired` one instant later, and `SessionNotFound` on the
empty cookie store. -/
theorem claim_C1_witness :
    (verifySession svcEx stEx 10000).1 = .ok sessEx ∧
    (verifySession svcEx stEx 10001).1 = .error .sessionExpired ∧
    (verifySession svcEx stEmpty 0).1 = .error .sessionNotFound :=
  ⟨((claim_C1_verifySession_classification svcEx stEx 10000).2.2.2 sessEx).mpr
      ⟨jwtSign "top-secret" ⟨"sid-1", "tok-1"⟩, ⟨"sid-1", "tok-1"⟩,
        by decide, by decide, by decide, by decide, by decide, by decide⟩,
   ((claim_C1_verifySession_classification svcEx stEx 10001).2.2.1).mpr
      ⟨jwtSign "top-secret" ⟨"sid-1", "tok-1"⟩, ⟨"sid-1", "tok-1"⟩, sessEx,
        by decide, by decide, by decide, by decide, by decide, by decide⟩,
   ((claim_C1_verifySession_classification svcEx stEmpty 0).1).mpr (by decide)⟩

end Kenmon

namespace Kenmon.EmailOTP

/-- The collaborator calls of `authenticate`: none when the payload
fails schema validation, only the storage read on an OTP-check
failure, the read followed by the mark-used write on success. -/
theorem authenticate_trace (isEmail : String → Bool) (store : List KenmonEmailOTP)
    (now : Nat) (d : AuthenticateData) :
    (authenticate isEmail store now d).2 =
      (match (authenticate isEmail store now d).1 with
       | .ok _ => [OTPEffect.getOTPByIdE d.otpId, OTPEffect.markOTPAsUsedE d.otpId]
       | .error (.invalidPayload _) => ([] : List OTPEffect)
       | .error (.otpError _) => [OTPEffect.getOTPByIdE d.otpId]) := by
  unfold authenticate
  split
  · rfl
  · split
    · rfl
    · split
      · rfl
      · split
        · rfl
        · split
          · rfl
          · split
            · rfl
            · rfl

/-- Evaluation of `authenticate` when all four checks pass. -/
theorem authenticate_ok (isEmail : String → Bool) (store : List KenmonEmailOTP)
    (now : Nat) (d : AuthenticateData) (otp : KenmonEmailOTP)
    (hs : authenticateSchemaOk isEmail d = true)
    (hget : getOTPById store d.otpId = some otp)
    (hemail : otp.email = d.email) (hused : otp.used = false)
    (hexp : now ≤ otp.expiresAt) (hcode : otp.code = d.code) :
    authenticate isEmail store now d =
      (.ok { type := "email-otp", value := d.email },
       [.getOTPByIdE d.otpId, .markOTPAsUsedE d.otpId]) := by
  unfold authenticate
  rw [if_neg (by simp [hs])]
  simp only [hget]
  rw [if_neg (fun h => h hemail), if_neg (by simp [hused]),
    if_neg (by simp [isAfter_eq_true_iff]; omega), if_neg (fun h => h hcode)]

/-- Marking an OTP used rewrites exactly its `used` flag in the store. -/
theorem getOTPById_markUsed (store : List KenmonEmailOTP) (id : String) :
    getOTPById (markOTPAsUsedStore store id) id =
      (getOTPById store id).map (fun o => { o with used := true }) := by
  unfold getOTPById markOTPAsUsedStore
  induction store with
  | nil => rfl
  | cons o rest ih =>
    by_cases h : o.id = id
    · simp [List.find?_cons, h]
    · simp [List.find?_cons, h, ih]

end Kenmon.EmailOTP

namespace Kenmon.EmailOTP

/-- Evaluation of `authenticate` when no OTP record has the given id. -/
theorem authenticate_notFound (isEmail : String → Bool) (store : List KenmonEmailOTP)
    (now : Nat) (d : AuthenticateData)
    (hs : authenticateSchemaOk isEmail d = true)
    (hget : getOTPById store d.otpId = none) :
    authenticate isEmail store now d =
      (.error (.otpError .notFound), [.getOTPByIdE d.otpId]) := by
  unfold authenticate
  rw [if_neg (by simp [hs])]
  simp only [hget]

/-- Evaluation of `authenticate` on an email mismatch (checked first). -/
theorem authenticate_emailMismatch (isEmail : String → Bool)
    (store : List KenmonEmailOTP) (now : Nat) (d : AuthenticateData)
    (otp : KenmonEmailOTP)
    (hs : authenticateSchemaOk isEmail d = true)
    (hget : getOTPById store d.otpId = some otp)
    (hne : otp.email ≠ d.email) :
    authenticate isEmail store now d =
      (.error (.otpError .emailMismatch), [.getOTPByIdE d.otpId]) := by
  unfold authenticate
  rw [if_neg (by simp [hs])]
  simp only [hget]
  rw [if_pos hne]

/-- Evaluation of `authenticate` on a used OTP (checked second). -/
theorem authenticate_alreadyUsed (isEmail : String → Bool)
    (store : List KenmonEmailOTP) (now : Nat) (d : AuthenticateData)
    (otp : KenmonEmailOTP)
    (hs : authenticateSchemaOk isEmail d = true)
    (hget : getOTPById store d.otpId = some otp)
    (hemail : otp.email = d.email) (hused : otp.used = true) :
    authenticate isEmail store now d =
      (.error (.otpError .alreadyUsed), [.getOTPByIdE d.otpId]) := by
  unfold authenticate
  rw [if_neg (by simp [hs])]
  simp only [hget]
  rw [if_neg (fun h => h hemail), if_pos hused]

/-- Evaluation of `authenticate` on an expired OTP (checked third). -/
theorem authenticate_expired (isEmail : String → Bool)
    (store : List KenmonEmailOTP) (now : Nat) (d : AuthenticateData)
    (otp : KenmonEmailOTP)
    (hs : authenticateSchemaOk isEmail d = true)
    (hget : getOTPById store d.otpId = some otp)
    (hemail : otp.email = d.email) (hused : otp.used = false)
    (hlt : otp.expiresAt < now) :
    authenticate isEmail store now d =
      (.error (.otpError .expired), [.getOTPByIdE d.otpId]) := by
  unfold authenticate
  rw [if_neg (by simp [hs])]
  simp only [hget]
  rw [if_neg (fun h => h hemail), if_neg (by simp [hused]),
    if_pos ((isAfter_eq_true_iff now otp.expiresAt).mpr hlt)]

/-- Evaluation of `authenticate` on a wrong code (checked fourth). -/
theorem authenticate_invalidCode (isEmail : String → Bool)
    (store : List KenmonEmailOTP) (now : Nat) (d : AuthenticateData)
    (otp : KenmonEmailOTP)
    (hs : authenticateSchemaOk isEmail d = true)
    (hget : getOTPById store d.otpId = some otp)
    (hemail : otp.email = d.email) (hused : otp.used = false)
    (hexp : now ≤ otp.expiresAt) (hcode : otp.code ≠ d.code) :
    authenticate isEmail store now d =
      (.error (.otpError .invalidCode), [.getOTPByIdE d.otpId]) := by
  unfold authenticate
  rw [if_neg (by simp [hs])]
  simp only [hget]
  rw [if_neg (fun h => h hemail), if_neg (by simp [hused]),
    if_neg (by simp [isAfter_eq_true_iff]; omega), if_pos hcode]

/-- C2: for a schema-valid payload, `authenticate` fetches the OTP by
id — failing with the `not-found` reason when absent, before any of
the four checks — and then runs the four checks in the fixed order
email match, not-used, not-expired, code match, the first failing
check determining the error reason.  In particular an OTP whose email
mismatches fails with `email-mismatch` regardless of its `used`,
expiry and code state. -/
theorem claim_C2_authenticate_check_order (isEmail : String → Bool)
    (store : List KenmonEmailOTP) (now : Nat) (d : AuthenticateData)
    (hs : authenticateSchemaOk isEmail d = true) :
    (getOTPById store d.otpId = none →
      (authenticate isEmail store now d).1 = .error (.otpError .notFound)) ∧
    (∀ otp, getOTPById store d.otpId = some otp →
      (otp.email ≠ d.email →
        (authenticate isEmail store now d).1 = .error (.otpError .emailMismatch)) ∧
      (otp.email = d.email → otp.used = true →
        (authenticate isEmail store now d).1 = .error (.otpError .alreadyUsed)) ∧
      (otp.email = d.email → otp.used = false → otp.expiresAt < now →
        (authenticate isEmail store now d).1 = .error (.otpError .expired)) ∧
      (otp.email = d.email → otp.used = false → now ≤ otp.expiresAt →
        otp.code ≠ d.code →
        (authenticate isEmail store now d).1 = .error (.otpError .invalidCode))) := by
  refine ⟨fun hget => ?_, fun otp hget => ⟨fun hne => ?_, fun hemail hused => ?_,
    fun hemail hused hlt => ?_, fun hemail hused hexp hcode => ?_⟩⟩
  · rw [authenticate_notFound isEmail store now d hs hget]
  · rw [authenticate_emailMismatch isEmail store now d otp hs hget hne]
  · rw [authenticate_alreadyUsed isEmail store now d otp hs hget hemail hused]
  · rw [authenticate_expired isEmail store now d otp hs hget hemail hused hlt]
  · rw [authenticate_invalidCode isEmail store now d otp hs hget hemail hused hexp hcode]

/-- Witness for C2: the fixture OTP has a mismatched email AND is
expired AND has a wrong code, yet fails with `email-mismatch`; and an
absent id fails with `not-found`. -/
theorem claim_C2_witness :
    (otpBadEx.email ≠ "a@b.com" ∧ otpBadEx.expiresAt < 1000 ∧
      otpBadEx.code ≠ "123456") ∧
    (authenticate isEmailEx [otpBadEx] 1000
        { email := "a@b.com", otpId := "otp-1", code := "123456" }).1 =
      .error (.otpError .emailMismatch) ∧
    (authenticate isEmailEx [] 1000
        { email := "a@b.com", otpId := "otp-1", code := "123456" }).1 =
      .error (.otpError .notFound) :=
  ⟨by decide,
   ((claim_C2_authenticate_check_order isEmailEx [otpBadEx] 1000
      { email := "a@b.com", otpId := "otp-1", code := "123456" } (by decide)).2
      otpBadEx (by decide)).1 (by decide),
   (claim_C2_authenticate_check_order isEmailEx [] 1000
      { email := "a@b.com", otpId := "otp-1", code := "123456" } (by decide)).1
      (by decide)⟩

end Kenmon.EmailOTP

namespace Kenmon.EmailOTP

/-- C3: `authenticate` marks the OTP used only after all four checks
pass: on every failing outcome it performs no `markOTPAsUsed` call and
leaves the store unchanged; for a valid unused OTP with matching email
and code it succeeds with `Identifier{type: "email-otp", value: email}`,
its only write is the mark-used call after the read, and re-running
`authenticate` on the resulting store with the same payload (at any
later clock) fails with the `already-used` reason. -/
theorem claim_C3_single_use (isEmail : String → Bool) (store : List KenmonEmailOTP)
    (now : Nat) (d : AuthenticateData) :
    (∀ e, (authenticate isEmail store now d).1 = .error e →
      (∀ x, OTPEffect.markOTPAsUsedE x ∉ (authenticate isEmail store now d).2) ∧
      applyOTPEffects store (authenticate isEmail store now d).2 = store) ∧
    (∀ otp, authenticateSchemaOk isEmail d = true →
      getOTPById store d.otpId = some otp →
      otp.email = d.email → otp.used = false → now ≤ otp.expiresAt →
      otp.code = d.code →
      (authenticate isEmail store now d).1 =
        .ok { type := "email-otp", value := d.email } ∧
      (authenticate isEmail store now d).2 =
        [.getOTPByIdE d.otpId, .markOTPAsUsedE d.otpId] ∧
      (∀ now2,
        (authenticate isEmail
            (applyOTPEffects store (authenticate isEmail store now d).2) now2 d).1 =
          .error (.otpError .alreadyUsed))) := by
  constructor
  · intro e he
    rw [authenticate_trace, he]
    cases e with
    | invalidPayload m =>
      exact ⟨fun x => by simp, by simp [applyOTPEffects]⟩
    | otpError r =>
      exact ⟨fun x => by simp, by simp [applyOTPEffects, applyOTPEffect]⟩
  · intro otp hs hget hemail hused hexp hcode
    have hok := authenticate_ok isEmail store now d otp hs hget hemail hused hexp hcode
    refine ⟨by rw [hok], by rw [hok], fun now2 => ?_⟩
    rw [hok]
    have hstore2 : applyOTPEffects store [.getOTPByIdE d.otpId, .markOTPAsUsedE d.otpId] =
        markOTPAsUsedStore store d.otpId := by
      simp [applyOTPEffects, applyOTPEffect]
    rw [hstore2]
    have hget2 : getOTPById (markOTPAsUsedStore store d.otpId) d.otpId =
        some { otp with used := true } := by
      rw [getOTPById_markUsed, hget]
      rfl
    rw [authenticate_alreadyUsed isEmail (markOTPAsUsedStore store d.otpId) now2 d
      { otp with used := true } hs hget2 hemail rfl]

/-- Witness for C3: in the fixture store the first `authenticate` with
the correct email and code succeeds, after which the same call fails
with `already-used`. -/
theorem claim_C3_witness :
    (authenticate isEmailEx [otpEx] 1000
        { email := "a@b.com", otpId := "otp-1", code := "123456" }).1 =
      .ok { type := "email-otp", value := "a@b.com" } ∧
    (authenticate isEmailEx
        (applyOTPEffects [otpEx]
          (authenticate isEmailEx [otpEx] 1000
            { email := "a@b.com", otpId := "otp-1", code := "123456" }).2) 1001
        { email := "a@b.com", otpId := "otp-1", code := "123456" }).1 =
      .error (.otpError .alreadyUsed) := by
  have h := (claim_C3_single_use isEmailEx [otpEx] 1000
    { email := "a@b.com", otpId := "otp-1", code := "123456" }).2 otpEx
    (by decide) (by decide) (by decide) (by decide) (by decide) (by decide)
  exact ⟨h.1, h.2.2 1001⟩

end Kenmon.EmailOTP

namespace Kenmon.EmailOTP

/-- Rewriting every stored signature leaves id-based lookup in the
obvious correspondence. -/
theorem getOTPById_map_signature (store : List KenmonEmailOTP) (id : String)
    (f : KenmonEmailOTP → String) :
    getOTPById (store.map (fun o => { o with signature := f o })) id =
      (getOTPById store id).map (fun o => { o with signature := f o }) := by
  unfold getOTPById
  induction store with
  | nil => rfl
  | cons o rest ih =>
    by_cases h : o.id = id
    · simp [List.find?_cons, h]
    · simp [List.find?_cons, h, ih]

/-- C8: the outcome of `authenticate` is independent of the stored
`signature` field — replacing every stored OTP's signature by an
arbitrary function of the record changes neither the result nor the
performed effects. -/
theorem claim_C8_signature_noninterference (isEmail : String → Bool)
    (store : List KenmonEmailOTP) (now : Nat) (d : AuthenticateData)
    (f : KenmonEmailOTP → String) :
    authenticate isEmail (store.map (fun o => { o with signature := f o })) now d =
      authenticate isEmail store now d := by
  unfold authenticate
  rw [getOTPById_map_signature]
  cases hget : getOTPById store d.otpId with
  | none => rfl
  | some otp => rfl

/-- Witness for C8: at the fixture store, rewriting the signature to a
constant leaves the successful outcome unchanged. -/
theorem claim_C8_witness :
    authenticate isEmailEx
        ([otpEx].map (fun o => { o with signature := "Boldly Calm Fox" })) 1000
        { email := "a@b.com", otpId := "otp-1", code := "123456" } =
      authenticate isEmailEx [otpEx] 1000
        { email := "a@b.com", otpId := "otp-1", code := "123456" } :=
  claim_C8_signature_noninterference isEmailEx [otpEx] 1000
    { email := "a@b.com", otpId := "otp-1", code := "123456" }
    (fun _ => "Boldly Calm Fox")

end Kenmon.EmailOTP

namespace Kenmon.EmailOTP

/-- C10: when the payload fails schema validation, `prepare` and
`authenticate` return a `KenmonInvalidPayloadError` (a failure outside
the five OTP reasons) with an empty effect trace: no storage read, no
storage write and no email send happen; in particular an empty `code`
yields the invalid-payload error, not the `invalid-code` reason. -/
theorem claim_C10_schema_validation (isEmail : String → Bool)
    (store : List KenmonEmailOTP) (now : Nat) (d : AuthenticateData)
    (p : EmailOTPProvider) (env : PrepareEnv) (dp : PrepareData) :
    (authenticateSchemaOk isEmail d = false →
      authenticate isEmail store now d =
        (.error (.invalidPayload (authenticateSchemaMsg isEmail d)), [])) ∧
    (prepareSchemaOk isEmail dp = false →
      prepare p isEmail now env dp =
        (.error (.invalidPayload "Invalid email address"), [])) := by
  constructor
  · intro h
    unfold authenticate
    rw [if_pos (by simp [h])]
  · intro h
    unfold prepare
    rw [if_pos (by simp [prepareSchemaOk] at h ⊢; simp [h])]

/-- Witness for C10: an empty `code` string (valid email, nonempty
`otpId`) makes `authenticate` fail with the invalid-payload error and
no effects, and a malformed email makes `prepare` fail likewise. -/
theorem claim_C10_witness :
    authenticate isEmailEx [otpEx] 1000
        { email := "a@b.com", otpId := "otp-1", code := "" } =
      (.error (.invalidPayload "OTP code is required"), []) ∧
    prepare provEx isEmailEx 1000 prepEnvEx { email := "not-an-email" } =
      (.error (.invalidPayload "Invalid email address"), []) ∧
    authenticateSchemaMsg isEmailEx
        { email := "a@b.com", otpId := "otp-1", code := "" } =
      "OTP code is required" :=
  ⟨(claim_C10_schema_validation isEmailEx [otpEx] 1000
      { email := "a@b.com", otpId := "otp-1", code := "" }
      provEx prepEnvEx { email := "not-an-email" }).1 (by decide),
   (claim_C10_schema_validation isEmailEx [otpEx] 1000
      { email := "a@b.com", otpId := "otp-1", code := "" }
      provEx prepEnvEx { email := "not-an-email" }).2 (by decide),
   by decide⟩

end Kenmon.EmailOTP

namespace Kenmon.EmailOTP

/-- Generated OTP codes have exactly `len` characters. -/
theorem generateOTPCode_length (len : Nat) (rand : Nat → Fin 10) :
    (generateOTPCode len rand).length = len := by
  simp [generateOTPCode, String.length]

/-- Every digit drawn through `crypto.randomInt(0, 10)` indexes into
the decimal digit list. -/
theorem otpDigits_getD_mem (k : Fin 10) : otpDigits.getD k.val '0' ∈ otpDigits := by
  revert k
  decide

/-- Every character of a generated OTP code is a decimal digit. -/
theorem generateOTPCode_digits (len : Nat) (rand : Nat → Fin 10) :
    ∀ c ∈ (generateOTPCode len rand).data, c ∈ otpDigits := by
  intro c hc
  simp only [generateOTPCode] at hc
  obtain ⟨i, _, rfl⟩ := List.mem_map.mp hc
  exact otpDigits_getD_mem (rand i)

/-- Evaluation of `prepare` on a schema-valid payload. -/
theorem prepare_ok (p : EmailOTPProvider) (isEmail : String → Bool) (now : Nat)
    (env : PrepareEnv) (dp : PrepareData) (hmail : isEmail dp.email = true) :
    prepare p isEmail now env dp =
      (.ok { otpId := (preparedOTP p now env dp).id
             signature := (preparedOTP p now env dp).signature },
       [.createOTPE (preparedOTP p now env dp),
        .sendEmailE (preparedMail p now env dp)]) := by
  unfold prepare preparedOTP preparedMail
  rw [if_neg (by simp [prepareSchemaOk, hmail])]

/-- C9: on a schema-valid payload, `prepare` stores an OTP whose code
has exactly `otpLength` decimal-digit characters and whose expiry is
`now + otpTtl`, sends one email to the given address, and returns only
`{otpId, signature}`; the value returned to the caller is independent
of the code-generating random draws (the code never appears in the
returned value); with the default configuration `otpLength = 6` and
`otpTtl = 300` seconds. -/
theorem claim_C9_prepare_contract (p : EmailOTPProvider) (isEmail : String → Bool)
    (now : Nat) (env : PrepareEnv) (dp : PrepareData)
    (hmail : isEmail dp.email = true) :
    (∃ otp mail,
      (prepare p isEmail now env dp).2 = [.createOTPE otp, .sendEmailE mail] ∧
      (prepare p isEmail now env dp).1 =
        .ok { otpId := otp.id, signature := otp.signature } ∧
      otp.id = env.freshOtpId ∧
      otp.email = dp.email ∧
      otp.code = generateOTPCode p.otpLength env.rand ∧
      otp.code.length = p.otpLength ∧
      (∀ c ∈ otp.code.data, c ∈ otpDigits) ∧
      otp.expiresAt = addSecondsMs now p.otpTtl ∧
      otp.used = false ∧
      mail.toAddr = dp.email) ∧
    (∀ env2 : PrepareEnv, env2.freshOtpId = env.freshOtpId →
      env2.sigAdverb = env.sigAdverb → env2.sigAdjective = env.sigAdjective →
      env2.sigAnimal = env.sigAnimal →
      (prepare p isEmail now env2 dp).1 = (prepare p isEmail now env dp).1) ∧
    ((mkEmailOTPProvider none none none none none none).otpLength = 6 ∧
     (mkEmailOTPProvider none none none none none none).otpTtl = 300) := by
  constructor
  · exact ⟨preparedOTP p now env dp, preparedMail p now env dp,
      by rw [prepare_ok p isEmail now env dp hmail],
      by rw [prepare_ok p isEmail now env dp hmail],
      rfl, rfl, rfl,
      generateOTPCode_length p.otpLength env.rand,
      generateOTPCode_digits p.otpLength env.rand, rfl, rfl, rfl⟩
  · refine ⟨fun env2 h1 h2 h3 h4 => ?_, rfl, rfl⟩
    rw [prepare_ok p isEmail now env2 dp hmail, prepare_ok p isEmail now env dp hmail]
    simp [preparedOTP, h1, h2, h3, h4]

/-- Witness for C9: with the default configuration and the fixture
environment, `prepare` succeeds, the stored code has six digit
characters, and the stored expiry is five minutes after `now = 0`. -/
theorem claim_C9_witness :
    ∃ otp mail,
      (prepare provEx isEmailEx 0 prepEnvEx { email := "a@b.com" }).2 =
        [.createOTPE otp, .sendEmailE mail] ∧
      (prepare provEx isEmailEx 0 prepEnvEx { email := "a@b.com" }).1 =
        .ok { otpId := otp.id, signature := otp.signature } ∧
      otp.code.length = 6 ∧
      otp.expiresAt = 300000 ∧
      otp.id = "otp-9" := by
  obtain ⟨otp, mail, htr, hok, hid, _, _, hlen, _, hexp, _, _⟩ :=
    (claim_C9_prepare_contract provEx isEmailEx 0 prepEnvEx
      { email := "a@b.com" } (by decide)).1
  exact ⟨otp, mail, htr, hok, hlen.trans (by decide), hexp.trans (by decide),
    hid.trans (by decide)⟩

end Kenmon.EmailOTP

namespace Kenmon

/-- Reading back the cookie that was just set returns its value. -/
theorem getCookieJar_set_same (jar : CookieJar) (name : String) (v : CookieValue) :
    getCookieJar (setCookieJar jar name v) name = some v := by
  simp [getCookieJar, setCookieJar, List.find?_cons]

/-- A value signed with a secret verifies under the same secret. -/
theorem jwtVerify_sign (secret : String) (p : SessionJwtPayload) :
    jwtVerify (jwtSign secret p) secret = some p := by
  simp [jwtVerify, jwtSign]

/-- Looking up a freshly appended session whose id occurs nowhere else. -/
theorem getSessionById_append_fresh (l : List KenmonSession) (s0 : KenmonSession)
    (h : ∀ s ∈ l, s.id ≠ s0.id) :
    getSessionById (l ++ [s0]) s0.id = some s0 := by
  unfold getSessionById
  induction l with
  | nil => simp [List.find?_cons]
  | cons s rest ih =>
    have hs : s.id ≠ s0.id := h s (List.mem_cons_self s rest)
    rw [List.cons_append, List.find?_cons_of_neg _ (by simpa using hs)]
    exact ih (fun t ht => h t (List.mem_cons_of_mem s ht))

/-- C4: a session cookie written by `createSession` is accepted by
`verifySession` executed immediately afterwards on the resulting
state, returning a session with the id `createSession` produced. -/
theorem claim_C4_create_verify_roundtrip (svc : KenmonAuthService) (st : AuthState)
    (now : Nat) (freshId freshToken userId : String) (mfaVerified : Bool)
    (ipAddress userAgent : Option String)
    (hfresh : ∀ s ∈ st.sessions, s.id ≠ freshId) :
    (verifySession svc
        (applyEffects now st
          (createSession svc now freshId freshToken userId mfaVerified
            ipAddress userAgent).2) now).1 =
      .ok (createSession svc now freshId freshToken userId mfaVerified
            ipAddress userAgent).1 ∧
    (createSession svc now freshId freshToken userId mfaVerified
        ipAddress userAgent).1.id = freshId := by
  refine ⟨?_, rfl⟩
  rw [verifySession_ok_iff]
  refine ⟨jwtSign svc.secret ⟨freshId, freshToken⟩, ⟨freshId, freshToken⟩,
    getCookieJar_set_same st.cookies (cookieNameOrDefault svc) _,
    jwtVerify_sign svc.secret _, ?_, rfl, rfl, Nat.le_add_right now _⟩
  exact getSessionById_append_fresh st.sessions _ hfresh

/-- Witness for C4: creating a session in the fixture state (whose
stored ids differ from the fresh id) and verifying right away
succeeds with the created session's id. -/
theorem claim_C4_witness :
    (verifySession svcEx
        (applyEffects 500 stEx
          (createSession svcEx 500 "sid-9" "tok-9" "u-1" false none none).2) 500).1 =
      .ok (createSession svcEx 500 "sid-9" "tok-9" "u-1" false none none).1 ∧
    (createSession svcEx 500 "sid-9" "tok-9" "u-1" false none none).1.id = "sid-9" :=
  claim_C4_create_verify_roundtrip svcEx stEx 500 "sid-9" "tok-9" "u-1" false none none
    (by decide)

end Kenmon

namespace Kenmon

/-- C5: when the inner `verifySession` succeeds, `refreshSession`'s
own storage update sets only `expiresAt = now + ttl` and
`refreshedAt = now` (its update record carries no other field), and it
re-issues the cookie signed over the same `sessionId`/`token` pair
already stored — the token is never rotated; when `verifySession`
fails, `refreshSession` returns that same error and performs no
effect at all (no expiry update, no cookie write). -/
theorem claim_C5_refresh_frame (svc : KenmonAuthService) (st : AuthState) (now : Nat) :
    (∀ e, (verifySession svc st now).1 = .error e →
      refreshSession svc st now = (.error e, [])) ∧
    (∀ s, (verifySession svc st now).1 = .ok s →
      (refreshSession svc st now).1 = .ok () ∧
      (refreshSession svc st now).2 =
        [.updateSessionE s.id { usedAt := some now },
         .updateSessionE s.id
           { expiresAt := some (addSecondsMs now svc.sessionTtl)
             refreshedAt := some now
             usedAt := none
             mfaVerified := none },
         .setCookieE (cookieNameOrDefault svc) (jwtSign svc.secret ⟨s.id, s.token⟩)
           { httpOnly := true
             secure := svc.secure
             sameSite := if svc.sameSite = "" then "lax" else svc.sameSite
             maxAge := svc.sessionTtl
             path := "/" }]) := by
  constructor
  · intro e he
    have htr := verifySession_error_trace svc st now e he
    have hv : verifySession svc st now = (.error e, []) := by
      rw [← he, ← htr]
    unfold refreshSession
    rw [hv]
  · intro s hs
    have htr := verifySession_ok_trace svc st now s hs
    have hv : verifySession svc st now =
        (.ok s, [.updateSessionE s.id { usedAt := some now }]) := by
      rw [← hs, ← htr]
    unfold refreshSession
    rw [hv]
    exact ⟨rfl, rfl⟩

/-- Witness for C5: in the fixture state the refresh succeeds with
exactly the touch, the expiry-only update and the cookie re-issue of
the stored pair; on the empty state it propagates `SessionNotFound`
with no effects. -/
theorem claim_C5_witness :
    (refreshSession svcEx stEx 10000).1 = .ok () ∧
    (refreshSession svcEx stEx 10000).2 =
      [.updateSessionE "sid-1" { usedAt := some 10000 },
       .updateSessionE "sid-1"
         { expiresAt := some (addSecondsMs 10000 svcEx.sessionTtl)
           refreshedAt := some 10000
           usedAt := none
           mfaVerified := none },
       .setCookieE (cookieNameOrDefault svcEx) (jwtSign "top-secret" ⟨"sid-1", "tok-1"⟩)
         { httpOnly := true
           secure := svcEx.secure
           sameSite := if svcEx.sameSite = "" then "lax" else svcEx.sameSite
           maxAge := svcEx.sessionTtl
           path := "/" }] ∧
    refreshSession svcEx stEmpty 0 = (.error .sessionNotFound, []) := by
  have hok : (verifySession svcEx stEx 10000).1 = .ok sessEx :=
    (verifySession_ok_iff svcEx stEx 10000 sessEx).mpr
      ⟨jwtSign "top-secret" ⟨"sid-1", "tok-1"⟩, ⟨"sid-1", "tok-1"⟩,
        by decide, by decide, by decide, by decide, by decide, by decide⟩
  have h2 := (claim_C5_refresh_frame svcEx stEx 10000).2 sessEx hok
  have herr : (verifySession svcEx stEmpty 0).1 = .error .sessionNotFound := rfl
  exact ⟨h2.1, h2.2, (claim_C5_refresh_frame svcEx stEmpty 0).1 .sessionNotFound herr⟩

end Kenmon

namespace Kenmon

/-- Shape of the `signOut` effect trace: the verify trace, then the
single or bulk invalidation when a valid session exists, then —
unconditionally — the cookie deletion. -/
theorem signOut_trace (svc : KenmonAuthService) (st : AuthState) (now : Nat)
    (allSessions : Bool) :
    signOut svc st now allSessions =
      (match (verifySession svc st now).1 with
       | .ok s => (verifySession svc st now).2 ++
           [if allSessions then Effect.invalidateAllE s.userId
            else Effect.invalidateSessionE s.id]
       | .error _ => (verifySession svc st now).2) ++
      [.deleteCookieE (cookieNameOrDefault svc)] := by
  unfold signOut
  rcases hv : verifySession svc st now with ⟨r, tr⟩
  cases r <;> simp [hv]

/-- Appending one effect is applying it to the intermediate state. -/
theorem applyEffects_append_singleton (now : Nat) (st : AuthState)
    (tr : List Effect) (e : Effect) :
    applyEffects now st (tr ++ [e]) = applyEffect now (applyEffects now st tr) e := by
  simp [applyEffects, List.foldl_append]

/-- After deleting a cookie it can no longer be read. -/
theorem getCookieJar_delete (jar : CookieJar) (name : String) :
    getCookieJar (deleteCookieJar jar name) name = none := by
  unfold getCookieJar deleteCookieJar
  have hnone : List.find? (fun p => decide (p.1 = name))
      (List.filter (fun p => decide (p.1 ≠ name)) jar) = none := by
    rw [List.find?_eq_none]
    intro p hp
    simp only [List.mem_filter] at hp
    simpa using hp.2
  rw [hnone]
  rfl

/-- Sessions of the bulk-invalidated user end up invalidated. -/
theorem invalidateAll_mem_invalidated (l : List KenmonSession) (u : String)
    (now : Nat) :
    ∀ t ∈ invalidateAllUserSessionsStore l u now, t.userId = u →
      t.invalidated = true := by
  intro t ht hu
  obtain ⟨t2, ht2, rfl⟩ := List.mem_map.mp ht
  by_cases h : t2.userId = u
  · simp [h]
  · rw [if_neg h] at hu ⊢
    exact absurd hu h

/-- The targeted session of a single invalidation ends up invalidated. -/
theorem invalidateSession_mem_invalidated (l : List KenmonSession) (sid : String)
    (now : Nat) :
    ∀ t ∈ invalidateSessionStore l sid now, t.id = sid → t.invalidated = true := by
  intro t ht hid
  obtain ⟨t2, ht2, rfl⟩ := List.mem_map.mp ht
  by_cases h : t2.id = sid
  · simp [h]
  · rw [if_neg h] at hid ⊢
    exact absurd hid h

/-- A session with a different id is untouched by `updateSession`. -/
theorem mem_update_of_ne_id (l : List KenmonSession) (sid : String)
    (u : SessionUpdate) (t : KenmonSession) (ht : t ∈ l) (hid : t.id ≠ sid) :
    t ∈ updateSessionStore l sid u := by
  unfold updateSessionStore
  exact List.mem_map.mpr ⟨t, ht, if_neg hid⟩

/-- A session of a different user is untouched by bulk invalidation. -/
theorem mem_invalidateAll_of_ne_user (l : List KenmonSession) (u : String)
    (now : Nat) (t : KenmonSession) (ht : t ∈ l) (hu : t.userId ≠ u) :
    t ∈ invalidateAllUserSessionsStore l u now := by
  unfold invalidateAllUserSessionsStore
  exact List.mem_map.mpr ⟨t, ht, if_neg hu⟩

/-- A session with a different id is untouched by single invalidation. -/
theorem mem_invalidateSession_of_ne_id (l : List KenmonSession) (sid : String)
    (now : Nat) (t : KenmonSession) (ht : t ∈ l) (hid : t.id ≠ sid) :
    t ∈ invalidateSessionStore l sid now := by
  unfold invalidateSessionStore
  exact List.mem_map.mpr ⟨t, ht, if_neg hid⟩

end Kenmon

namespace Kenmon

/-- C6: `signOut` always deletes the session cookie — also when no
valid session was found, where cookie deletion is its only effect, so
repeated sign-out is safe; when a valid session exists and the ids in
the store are distinct, `signOut` with `allSessions` invalidates every
stored session of that session's user and leaves every other user's
session record unchanged, while `signOut` without it invalidates the
current session and leaves every other session record unchanged
(beyond the `usedAt` touch of the verify step). -/
theorem claim_C6_signOut_scope (svc : KenmonAuthService) (st : AuthState) (now : Nat) :
    (∀ allSessions, getCookieJar
        (applyEffects now st (signOut svc st now allSessions)).cookies
        (cookieNameOrDefault svc) = none) ∧
    (∀ allSessions e, (verifySession svc st now).1 = .error e →
      signOut svc st now allSessions = [.deleteCookieE (cookieNameOrDefault svc)]) ∧
    (∀ s, (verifySession svc st now).1 = .ok s →
      (st.sessions.map KenmonSession.id).Nodup →
      (∀ t ∈ (applyEffects now st (signOut svc st now true)).sessions,
          t.userId = s.userId → t.invalidated = true) ∧
      (∀ t ∈ st.sessions, t.userId ≠ s.userId →
          t ∈ (applyEffects now st (signOut svc st now true)).sessions) ∧
      (∀ t ∈ (applyEffects now st (signOut svc st now false)).sessions,
          t.id = s.id → t.invalidated = true) ∧
      (∀ t ∈ st.sessions, t.id ≠ s.id →
          t ∈ (applyEffects now st (signOut svc st now false)).sessions)) := by
  refine ⟨fun allSessions => ?_, fun allSessions e he => ?_, fun s hs hnodup => ?_⟩
  · rw [signOut_trace svc st now allSessions, applyEffects_append_singleton]
    exact getCookieJar_delete _ _
  · have htr := verifySession_error_trace svc st now e he
    rw [signOut_trace svc st now allSessions]
    simp only [he, htr, List.nil_append]
  · have htr := verifySession_ok_trace svc st now s hs
    obtain ⟨cv, d, hcv, hjw, hget, htok, hinv, hle⟩ :=
      (verifySession_ok_iff svc st now s).mp hs
    have hsmem : s ∈ st.sessions := List.mem_of_find?_eq_some hget
    have hsessT : (applyEffects now st (signOut svc st now true)).sessions =
        invalidateAllUserSessionsStore
          (updateSessionStore st.sessions s.id { usedAt := some now })
          s.userId now := by
      rw [signOut_trace svc st now true]
      simp only [hs, htr]
      rfl
    have hsessF : (applyEffects now st (signOut svc st now false)).sessions =
        invalidateSessionStore
          (updateSessionStore st.sessions s.id { usedAt := some now })
          s.id now := by
      rw [signOut_trace svc st now false]
      simp only [hs, htr]
      rfl
    refine ⟨?_, ?_, ?_, ?_⟩
    · rw [hsessT]
      exact invalidateAll_mem_invalidated _ _ _
    · intro t ht hu
      rw [hsessT]
      have hid : t.id ≠ s.id := by
        intro hEq
        exact hu (by rw [List.inj_on_of_nodup_map hnodup ht hsmem hEq])
      exact mem_invalidateAll_of_ne_user _ _ _ t
        (mem_update_of_ne_id _ _ _ t ht hid) hu
    · rw [hsessF]
      exact invalidateSession_mem_invalidated _ _ _
    · intro t ht hid
      rw [hsessF]
      exact mem_invalidateSession_of_ne_id _ _ _ t
        (mem_update_of_ne_id _ _ _ t ht hid) hid

end Kenmon

namespace Kenmon

/-- Witness for C6: in the fixture state (user `u-1` owns `sid-1` and
`sid-3`, user `u-2` owns `sid-2`), bulk sign-out deletes the cookie,
invalidates every `u-1` session, and leaves `u-2`'s session record
unchanged; on the empty state sign-out still deletes the cookie and
does nothing else. -/
theorem claim_C6_witness :
    getCookieJar (applyEffects 10000 stEx (signOut svcEx stEx 10000 true)).cookies
      (cookieNameOrDefault svcEx) = none ∧
    signOut svcEx stEmpty 0 true = [.deleteCookieE (cookieNameOrDefault svcEx)] ∧
    (∀ t ∈ (applyEffects 10000 stEx (signOut svcEx stEx 10000 true)).sessions,
      t.userId = "u-1" → t.invalidated = true) ∧
    sessEx2 ∈ (applyEffects 10000 stEx (signOut svcEx stEx 10000 true)).sessions := by
  have hok : (verifySession svcEx stEx 10000).1 = .ok sessEx :=
    (verifySession_ok_iff svcEx stEx 10000 sessEx).mpr
      ⟨jwtSign "top-secret" ⟨"sid-1", "tok-1"⟩, ⟨"sid-1", "tok-1"⟩,
        by decide, by decide, by decide, by decide, by decide, by decide⟩
  have h := (claim_C6_signOut_scope svcEx stEx 10000).2.2 sessEx hok (by decide)
  refine ⟨(claim_C6_signOut_scope svcEx stEx 10000).1 true,
    (claim_C6_signOut_scope svcEx stEmpty 0).2.1 true .sessionNotFound rfl,
    h.1, h.2.1 sessEx2 (by decide) (by decide)⟩

end Kenmon

namespace Kenmon.GoogleOAuth

/-- Length of the concatenated hex encoding: two characters per byte. -/
theorem flatten_map_byteToHex_length (l : List Nat) (byte : Nat → Fin 256) :
    ((l.map (fun i => byteToHex (byte i))).map String.data).flatten.length =
      2 * l.length := by
  induction l with
  | nil => rfl
  | cons a t ih =>
    rw [List.map_cons, List.map_cons, List.flatten_cons, List.length_append, ih]
    show 2 + 2 * t.length = 2 * (t.length + 1)
    omega

/-- `randomBytesHex n` produces `2 * n` characters (so 16 random bytes
— 128 bits — yield a 32-character nonce). -/
theorem randomBytesHex_length (n : Nat) (byte : Nat → Fin 256) :
    (randomBytesHex n byte).length = 2 * n := by
  unfold randomBytesHex
  rw [String.join_eq]
  show (((List.range n).map fun i => byteToHex (byte i)).map String.data).flatten.length =
    2 * n
  rw [flatten_map_byteToHex_length, List.length_range]

/-- `verifyStateToken` rejects exactly the tokens that are not signed
with the configured secret or whose `exp` claim has passed. -/
theorem verifyStateToken_none_iff (token : StateToken) (secret : String)
    (nowSec : Nat) :
    verifyStateToken token secret nowSec = none ↔
      (∀ p, token ≠ .jwtSigned secret p) ∨
      (∃ p, token = .jwtSigned secret p ∧ p.exp ≤ nowSec) := by
  cases token with
  | garbage r =>
    unfold verifyStateToken
    constructor
    · intro _
      exact .inl (fun p h => StateToken.noConfusion h)
    · intro _
      rfl
  | jwtSigned s p =>
    change (if s = secret ∧ nowSec < p.exp then some p else none) = none ↔ _
    by_cases hsec : s = secret
    · by_cases hexp : nowSec < p.exp
      · rw [if_pos ⟨hsec, hexp⟩]
        constructor
        · intro h
          exact absurd h (by simp)
        · rintro (h | ⟨p2, hp2, hle⟩)
          · exact absurd (by rw [hsec]) (h p)
          · cases hp2
            omega
      · rw [if_neg (fun h => hexp h.2)]
        constructor
        · intro _
          subst hsec
          exact .inr ⟨p, rfl, by omega⟩
        · intro _
          rfl
    · rw [if_neg (fun h => hsec h.1)]
      constructor
      · intro _
        refine .inl (fun p2 h => ?_)
        cases h
        exact hsec rfl
      · intro _
        rfl

/-- C7: a callback whose `state` token is not signed with the
configured secret (or is garbage), or whose `exp` claim has passed,
makes `verifyCallback` fail with the `invalid-state` error without any
call to the OAuth client — no code exchange is attempted; and the
state tokens produced by `generateStateToken` (used by `getAuthUrl`)
carry `exp = iat + 600` seconds and a nonce that is the hex encoding
of 16 random bytes (128 bits), 32 characters long. -/
theorem claim_C7_state_protection (secret : String) :
    (∀ env nowSec code state,
      ((∀ p, state ≠ .jwtSigned secret p) ∨
        (∃ p, state = .jwtSigned secret p ∧ p.exp ≤ nowSec)) →
      verifyCallback secret env nowSec code state = (.error .invalidState, [])) ∧
    (∀ nowSec byte intent,
      generateStateToken secret nowSec byte intent =
        .jwtSigned secret
          { iat := nowSec
            exp := nowSec + 600
            nonce := randomBytesHex 16 byte
            intent := intent } ∧
      (randomBytesHex 16 byte).length = 32) := by
  constructor
  · intro env nowSec code state h
    have hnone : verifyStateToken state secret nowSec = none :=
      (verifyStateToken_none_iff state secret nowSec).mpr h
    unfold verifyCallback
    rw [hnone]
  · intro nowSec byte intent
    exact ⟨rfl, (randomBytesHex_length 16 byte).trans rfl⟩

/-- Witness for C7: a garbage state and an expired state (signed with
the right secret but `exp = now`) are both rejected as `invalid-state`
with no OAuth-client call, and a generated token at `iat = 40` carries
`exp = 640` and a 32-character nonce. -/
theorem claim_C7_witness :
    verifyCallback "s2" oauthEnvEx 1000 "codeX" (.garbage "junk") =
      (.error .invalidState, []) ∧
    verifyCallback "s2" oauthEnvEx 1000 "codeX"
        (.jwtSigned "s2" { iat := 400, exp := 1000, nonce := "n", intent := .signInIntent }) =
      (.error .invalidState, []) ∧
    generateStateToken "s2" 40 (fun _ => ⟨171, by decide⟩) .signUpIntent =
      .jwtSigned "s2"
        { iat := 40, exp := 640,
          nonce := randomBytesHex 16 (fun _ => ⟨171, by decide⟩),
          intent := .signUpIntent } ∧
    (randomBytesHex 16 (fun _ => (⟨171, by decide⟩ : Fin 256))).length = 32 :=
  ⟨(claim_C7_state_protection "s2").1 oauthEnvEx 1000 "codeX" (.garbage "junk")
      (.inl (fun p h => StateToken.noConfusion h)),
   (claim_C7_state_protection "s2").1 oauthEnvEx 1000 "codeX" _
      (.inr ⟨{ iat := 400, exp := 1000, nonce := "n", intent := .signInIntent },
        rfl, by decide⟩),
   ((claim_C7_state_protection "s2").2 40 (fun _ => ⟨171, by decide⟩) .signUpIntent).1,
   ((claim_C7_state_protection "s2").2 40 (fun _ => ⟨171, by decide⟩) .signUpIntent).2⟩

end Kenmon.GoogleOAuth
